import Mathlib

/-!
# Shallow embedding of the RevCopy admin panel API client

This file embeds, in Lean, the `TokenManager` and `ApiClient` classes of
`src/revcopy-admin-main/src/lib/api.ts`, and proves properties about them.

Modelling conventions:
* `localStorage` is modelled by the record `LocalStorage`, one `Option String`
  field per storage key used by `TokenManager` (`admin_access_token`,
  `admin_refresh_token`, `admin_token_expiry`); `getItem` returning `null`
  is `none`.
* `Date.now()` is passed explicitly as an `Int` parameter `now`
  (epoch milliseconds).  A single logical call uses one `now` value.
* JavaScript `parseInt` returning `NaN` is modelled as `none`; the JS
  comparison `x >= NaN`, which evaluates to `false`, is modelled explicitly
  at the use site.  The automatic hexadecimal-radix detection of `parseInt`
  (a leading `0x`) is not modelled: no value written by `TokenManager`, and
  no input considered here, starts with `0x`.
* Network effects (`fetch`) are modelled by passing the would-be outcome of
  each `fetch` call as an explicit parameter; thrown JS values are
  `JsException` (an `Error` with a message, or any non-`Error` value).
-/

namespace Revcopy

/-- The `AuthResponse` interface of `api.ts` (shape of a token pair as
returned by the login and refresh endpoints). -/
structure AuthResponse where
  access_token : String
  refresh_token : String
  token_type : String
  expires_in : Int
deriving Repr, DecidableEq

/-- The browser `localStorage`, restricted to the three fixed keys used by
`TokenManager` (`admin_access_token`, `admin_refresh_token`,
`admin_token_expiry`).  `none` models an absent key (`getItem` = `null`). -/
structure LocalStorage where
  admin_access_token : Option String
  admin_refresh_token : Option String
  admin_token_expiry : Option String
deriving Repr, DecidableEq

/-- Digit-string value, `foldl`-style as `parseInt` accumulates digits. -/
def digitCharsToNat (l : List Char) : Nat :=
  l.foldl (fun acc c => acc * 10 + (c.toNat - 48)) 0

/-- JavaScript `parseInt(s)` (decimal): skip leading whitespace, optional
sign, then the longest run of decimal digits; `NaN` (here `none`) when that
run is empty. -/
def jsParseInt (s : String) : Option Int :=
  let cs := s.data.dropWhile (fun c => c.isWhitespace)
  let signed : Int × List Char :=
    match cs with
    | '-' :: rest => (-1, rest)
    | '+' :: rest => (1, rest)
    | _ => (1, cs)
  let ds := signed.2.takeWhile (fun c => c.isDigit)
  if ds.isEmpty then none
  else some (signed.1 * (digitCharsToNat ds : Int))

/-- Embedding of `TokenManager.setTokens(authResponse)`: stores the access token, refresh
token and computed absolute expiry `Date.now() + expires_in * 1000`
(stringified) under the three fixed keys, overwriting all of them. -/
def setTokens (now : Int) (a : AuthResponse) : LocalStorage :=
  { admin_access_token := some a.access_token
    admin_refresh_token := some a.refresh_token
    admin_token_expiry := some (toString (now + a.expires_in * 1000)) }

/-- Embedding of `TokenManager.getAccessToken()`. -/
def getAccessToken (s : LocalStorage) : Option String :=
  s.admin_access_token

/-- Embedding of `TokenManager.getRefreshToken()`. -/
def getRefreshToken (s : LocalStorage) : Option String :=
  s.admin_refresh_token

/-- Embedding of `TokenManager.isTokenExpired()`.  The JS source is
`if (!expiryTime) return true; return Date.now() >= parseInt(expiryTime);`:
a missing key (`null`) and the empty string are both falsy, giving `true`;
otherwise the stored string is `parseInt`-ed and compared.  When `parseInt`
yields `NaN` the JS comparison `now >= NaN` is `false`. -/
def isTokenExpired (now : Int) (s : LocalStorage) : Bool :=
  match s.admin_token_expiry with
  | none => true
  | some e =>
    if e = "" then true
    else
      match jsParseInt e with
      | none => false
      | some n => decide (now ≥ n)

/-- Embedding of `TokenManager.clearTokens()`: removes all three keys. -/
def clearTokens (_s : LocalStorage) : LocalStorage :=
  { admin_access_token := none
    admin_refresh_token := none
    admin_token_expiry := none }

/-- Embedding of `TokenManager.isAuthenticated()`: `token !== null && !isTokenExpired()`.
Note the `!== null` check: an empty-string access token counts as present
here. -/
def isAuthenticated (now : Int) (s : LocalStorage) : Bool :=
  match getAccessToken s with
  | none => false
  | some _ => !(isTokenExpired now s)

/-! ## The request gateway (`ApiClient`) -/

/-- A thrown JavaScript value: an `Error` instance carrying a message, or
any other value.  `error instanceof Error ? error.message : ...` in
`request`'s catch block branches on exactly this distinction. -/
inductive JsException where
  | err (message : String)
  | nonError
deriving Repr, DecidableEq

/-- A JSON value, as produced by `response.json()`. -/
inductive JsValue where
  | null
  | bool (b : Bool)
  | num (n : Int)
  | str (s : String)
  | arr (elems : List JsValue)
  | obj (fields : List (String × JsValue))
deriving Repr

/-- JS property read `j[k]` for the object case; `none` models `undefined`
(property reads on non-objects other than `null` also give `undefined`;
the `null.detail` TypeError, which the catch block would turn into the same
kind of failure envelope, is likewise folded into `none` here). -/
def jsGetField (j : JsValue) (k : String) : Option JsValue :=
  match j with
  | .obj fields => (fields.find? (fun p => p.1 = k)).map (fun p => p.2)
  | _ => none

/-- JS truthiness of a JSON value. -/
def jsTruthy : JsValue → Bool
  | .null => false
  | .bool b => b
  | .num n => decide (n ≠ 0)
  | .str s => decide (s ≠ "")
  | .arr _ => true
  | .obj _ => true

mutual

/-- JS `String(v)` coercion of a JSON value. -/
def jsToString : JsValue → String
  | .null => "null"
  | .bool true => "true"
  | .bool false => "false"
  | .num n => toString n
  | .str s => s
  | .arr es => jsToStringElems es
  | .obj _ => "[object Object]"

/-- Array elements joined by commas; a `null` element stringifies to the
empty string inside an array (JS `Array.prototype.join`). -/
def jsToStringElems : List JsValue → String
  | [] => ""
  | [JsValue.null] => ""
  | [e] => jsToString e
  | JsValue.null :: rest => "," ++ jsToStringElems rest
  | e :: rest => jsToString e ++ "," ++ jsToStringElems rest

end

/-- Evaluation of `data.detail || fallback` in the non-2xx branch: the `detail` property
when it exists and is truthy (coerced to a string as `Error` does), else
`none` (the caller substitutes the fallback). -/
def errorDetail (data : JsValue) : Option String :=
  match jsGetField data "detail" with
  | none => none
  | some d => if jsTruthy d then some (jsToString d) else none

/-- Embedding of `response.ok`: HTTP status in the 2xx range. -/
def respOk (status : Nat) : Bool :=
  decide (200 ≤ status) && decide (status < 300)

/-- Outcome of the primary `fetch` in `request`: either the promise
rejects (network error, timeout — `AbortSignal.timeout`), or a response
arrives, whose `json()` body either parses or throws. -/
inductive FetchResult where
  | failure (e : JsException)
  | response (status : Nat) (statusText : String) (body : Except JsException JsValue)
deriving Repr

/-- Outcome of the refresh-endpoint POST in `handleAuthError`; its body is
read (as an `AuthResponse`) only when the response is OK. -/
inductive RefreshResult where
  | failure (e : JsException)
  | response (status : Nat) (body : Except JsException AuthResponse)
deriving Repr

/-- Message of the catch block: `error instanceof Error ? error.message :
'Unknown error occurred'`. -/
def jsErrorMessage : JsException → String
  | .err m => m
  | .nonError => "Unknown error occurred"

/-- The `ApiResponse` envelope of `api.ts`. -/
structure ApiResponse where
  success : Bool
  data : Option JsValue
  message : Option String
deriving Repr

/-- Header lists with JS-object semantics: assignment overwrites the first
matching key, insertion order otherwise preserved (keys case-sensitive, as
in the object literal of `request`). -/
def setHeader : List (String × String) → String → String → List (String × String)
  | [], k, v => [(k, v)]
  | (k', v') :: rest, k, v =>
    if k' = k then (k, v) :: rest else (k', v') :: setHeader rest k v

/-- Spread `{...base, ...extra}`: later keys win. -/
def mergeHeaders (base extra : List (String × String)) : List (String × String) :=
  extra.foldl (fun acc kv => setHeader acc kv.1 kv.2) base

/-- First value stored under a key. -/
def headerLookup (k : String) : List (String × String) → Option String
  | [] => none
  | (k', v) :: rest => if k' = k then some v else headerLookup k rest

/-- The header object `request` builds:
`{'Content-Type': 'application/json', ...options.headers}`, then
`headers['Authorization'] = 'Bearer ' + token` when
`token && !TokenManager.isTokenExpired()` — note the truthiness test: an
empty-string token gets no Authorization header. -/
def requestHeaders (now : Int) (s : LocalStorage)
    (callerHeaders : List (String × String)) : List (String × String) :=
  let headers := mergeHeaders [("Content-Type", "application/json")] callerHeaders
  match getAccessToken s with
  | none => headers
  | some token =>
    if token = "" then headers
    else if isTokenExpired now s then headers
    else setHeader headers "Authorization" ("Bearer " ++ token)

/-- Result of `handleAuthError`: the store afterwards, where
`window.location.href` was pointed (if anywhere), and how many POSTs went
to the refresh endpoint. -/
structure AuthErrorOutcome where
  store : LocalStorage
  redirect : Option String
  refreshPosts : Nat
deriving Repr

/-- Embedding of `ApiClient.handleAuthError()`: with no (or falsy) refresh token, clear
the store and redirect without contacting the refresh endpoint; otherwise
POST to the refresh endpoint once — on an OK response whose body parses,
`setTokens`; on a non-OK response, a rejected fetch, or a body that fails
to parse, clear the store and redirect. -/
def handleAuthError (now : Int) (s : LocalStorage)
    (refreshResult : RefreshResult) : AuthErrorOutcome :=
  match getRefreshToken s with
  | none => ⟨clearTokens s, some "/login", 0⟩
  | some rt =>
    if rt = "" then ⟨clearTokens s, some "/login", 0⟩
    else
      match refreshResult with
      | .failure _ => ⟨clearTokens s, some "/login", 1⟩
      | .response status body =>
        if respOk status then
          match body with
          | .ok auth => ⟨setTokens now auth, none, 1⟩
          | .error _ => ⟨clearTokens s, some "/login", 1⟩
        else ⟨clearTokens s, some "/login", 1⟩

/-- Everything observable about one `request` call: the returned envelope,
the store afterwards, any redirect, the number of refresh-endpoint POSTs,
the number of primary fetches issued (the source calls `fetch` once, with
no retry loop), and the headers sent on the primary fetch. -/
structure RequestOutcome where
  envelope : ApiResponse
  store : LocalStorage
  redirect : Option String
  refreshPosts : Nat
  primaryFetches : Nat
  sentHeaders : List (String × String)
deriving Repr

/-- Embedding of `ApiClient.request(endpoint, options)`.  The outcome of the primary
fetch and (should it be consulted) of the refresh POST are passed in as
`primary` and `refreshResult`.  A 401 runs `handleAuthError` and then
throws `Error('Authentication required')`, which the catch block turns
into a failure envelope; otherwise the body is parsed, a non-2xx status
throws `Error(data.detail || 'HTTP <status>: <statusText>')`, and a 2xx
returns `{success: true, data}`.  Every throw lands in the catch block,
which returns `{success: false, message}`. -/
def request (now : Int) (s : LocalStorage)
    (callerHeaders : List (String × String))
    (primary : FetchResult) (refreshResult : RefreshResult) : RequestOutcome :=
  let headers := requestHeaders now s callerHeaders
  match primary with
  | .failure e =>
    ⟨⟨false, none, some (jsErrorMessage e)⟩, s, none, 0, 1, headers⟩
  | .response status statusText body =>
    if status = 401 then
      let h := handleAuthError now s refreshResult
      ⟨⟨false, none, some "Authentication required"⟩,
        h.store, h.redirect, h.refreshPosts, 1, headers⟩
    else
      match body with
      | .error e =>
        ⟨⟨false, none, some (jsErrorMessage e)⟩, s, none, 0, 1, headers⟩
      | .ok data =>
        if respOk status then
          ⟨⟨true, some data, none⟩, s, none, 0, 1, headers⟩
        else
          let msg :=
            match errorDetail data with
            | some d => d
            | none => "HTTP " ++ toString status ++ ": " ++ statusText
          ⟨⟨false, none, some msg⟩, s, none, 0, 1, headers⟩

/-- Embedding of `ApiClient.login(credentials)`: a plain `request` to the login endpoint
(POST with the credentials as body, no extra headers); it does not itself
touch the Token Store. -/
def login (now : Int) (s : LocalStorage)
    (primary : FetchResult) (refreshResult : RefreshResult) : RequestOutcome :=
  request now s [] primary refreshResult

/-- Reading an `AuthResponse` out of a JSON body (all three token fields
present with their expected primitive types). -/
def authResponseOfJson (j : JsValue) : Option AuthResponse :=
  match jsGetField j "access_token", jsGetField j "refresh_token",
      jsGetField j "token_type", jsGetField j "expires_in" with
  | some (.str a), some (.str r), some (.str t), some (.num e) =>
    some ⟨a, r, t, e⟩
  | _, _, _, _ => none

/-- Modelled from the spec: the login flow of the application.  The caller
that persists a successful login's Token Pair (the `AuthContext` behind
`useAuth().login`, imported by `src/revcopy-admin-main/src/pages/Login.tsx`)
is not among the sources; per the spec's lifecycle — a Token Pair is
"created on successful login" via `setTokens` — the flow runs
`ApiClient.login` and, when the envelope is successful and carries a Token
Pair, stores it. -/
def loginFlow (now : Int) (s : LocalStorage)
    (primary : FetchResult) (refreshResult : RefreshResult) : RequestOutcome :=
  let o := login now s primary refreshResult
  if o.envelope.success then
    match o.envelope.data with
    | some j =>
      match authResponseOfJson j with
      | some auth => { o with store := setTokens now auth }
      | none => o
    | none => o
  else o

/-- The code's criterion for holding a refresh token (the
`if (!refreshToken)` branch of `handleAuthError`): present and non-empty.
This is exactly the condition under which the refresh POST is issued. -/
def hasRefreshToken (s : LocalStorage) : Bool :=
  match getRefreshToken s with
  | none => false
  | some rt => decide (rt ≠ "")

/-! ## Helper lemmas about header lists -/

theorem headerLookup_setHeader_self (h : List (String × String)) (k v : String) :
    headerLookup k (setHeader h k v) = some v := by
  induction h with
  | nil => simp [setHeader, headerLookup]
  | cons kv rest ih =>
    obtain ⟨k', v'⟩ := kv
    by_cases hk : k' = k
    · subst hk
      simp [setHeader, headerLookup]
    · simp [setHeader, headerLookup, hk, ih]

theorem headerLookup_setHeader_ne (h : List (String × String)) (k k' v : String)
    (hne : k' ≠ k) : headerLookup k' (setHeader h k v) = headerLookup k' h := by
  have hne' : ¬k = k' := fun hh => hne hh.symm
  induction h with
  | nil => simp [setHeader, headerLookup, hne']
  | cons kv rest ih =>
    obtain ⟨k₀, v₀⟩ := kv
    by_cases hk : k₀ = k
    · subst hk
      simp [setHeader, headerLookup, hne']
    · by_cases hk' : k₀ = k'
      · subst hk'
        simp [setHeader, headerLookup, hk]
      · simp [setHeader, headerLookup, hk, hk', ih]

theorem headerLookup_mergeHeaders_of_absent (extra : List (String × String)) :
    ∀ (base : List (String × String)) (k : String), headerLookup k extra = none →
      headerLookup k (mergeHeaders base extra) = headerLookup k base := by
  induction extra with
  | nil => intro base k _; rfl
  | cons kv rest ih =>
    intro base k hk
    obtain ⟨k₀, v₀⟩ := kv
    by_cases h0 : k₀ = k
    · simp [headerLookup, h0] at hk
    · simp only [headerLookup, h0, if_false] at hk
      have : mergeHeaders base ((k₀, v₀) :: rest) =
          mergeHeaders (setHeader base k₀ v₀) rest := rfl
      rw [this, ih (setHeader base k₀ v₀) k hk,
        headerLookup_setHeader_ne base k₀ k v₀ (fun hh => h0 hh.symm)]

/-! ## Helper lemmas about the gateway -/

theorem request_at_401 (now : Int) (s : LocalStorage)
    (hs : List (String × String)) (stx : String)
    (body : Except JsException JsValue) (rr : RefreshResult) :
    request now s hs (.response 401 stx body) rr =
      ⟨⟨false, none, some "Authentication required"⟩,
        (handleAuthError now s rr).store, (handleAuthError now s rr).redirect,
        (handleAuthError now s rr).refreshPosts, 1, requestHeaders now s hs⟩ := by
  simp [request]

theorem handleAuthError_refreshPosts (now : Int) (s : LocalStorage)
    (rr : RefreshResult) :
    (handleAuthError now s rr).refreshPosts =
      (if hasRefreshToken s then 1 else 0) := by
  unfold handleAuthError hasRefreshToken
  cases h : getRefreshToken s with
  | none => simp
  | some rt =>
    by_cases hrt : rt = ""
    · subst hrt
      simp
    · cases rr with
      | failure e => simp [hrt]
      | response st b =>
        by_cases hok : respOk st = true
        · cases b with
          | ok auth => simp [hrt, hok]
          | error e => simp [hrt, hok]
        · simp [hrt, hok]

theorem request_sentHeaders (now : Int) (s : LocalStorage)
    (hs : List (String × String)) (p : FetchResult) (rr : RefreshResult) :
    (request now s hs p rr).sentHeaders = requestHeaders now s hs := by
  cases p with
  | failure e => rfl
  | response st stx body =>
    by_cases h401 : st = 401
    · subst h401
      rfl
    · cases body with
      | error e => simp [request, h401]
      | ok j =>
        by_cases hok : respOk st = true
        · simp [request, h401, hok]
        · simp [request, h401, hok]

/-! ## The claims -/

/-- C6: for every Token Store state — every combination of access token
present/absent and expiry past/future/absent — `isAuthenticated()` returns
true iff an access token is present (`getAccessToken` is not `null`) and
`isTokenExpired()` returns false. -/
theorem c6_authenticated_iff_present_and_unexpired (now : Int) (s : LocalStorage) :
    isAuthenticated now s = true ↔
      getAccessToken s ≠ none ∧ isTokenExpired now s = false := by
  cases h : getAccessToken s with
  | none => simp [isAuthenticated, h]
  | some t => simp [isAuthenticated, h]

/-- C7: `isTokenExpired()` returns true when no expiry is recorded
(fail-closed), and when an expiry is recorded that denotes a numeric
timestamp `n` it returns exactly the comparison `now ≥ n`; in particular a
recorded expiry strictly in the future yields false. -/
theorem c7_expiry_fail_closed_and_comparison (now : Int) (s : LocalStorage) :
    (s.admin_token_expiry = none → isTokenExpired now s = true) ∧
    (∀ e n, s.admin_token_expiry = some e → jsParseInt e = some n →
      isTokenExpired now s = decide (now ≥ n)) ∧
    (∀ e n, s.admin_token_expiry = some e → jsParseInt e = some n → now < n →
      isTokenExpired now s = false) := by
  refine ⟨fun h => by simp [isTokenExpired, h], ?_, ?_⟩
  · intro e n he hn
    have hne : e ≠ "" := by
      intro h
      subst h
      simp [jsParseInt] at hn
    simp [isTokenExpired, he, hne, hn]
  · intro e n he hn hlt
    have hne : e ≠ "" := by
      intro h
      subst h
      simp [jsParseInt] at hn
    simp [isTokenExpired, he, hne, hn]
    omega

/-- Witness for C7 at concrete stores: no expiry recorded gives true; the
recorded expiry `"2000"` denotes 2000, is unexpired at time 1000 and
expired at time 2500. -/
theorem c7_expiry_fail_closed_and_comparison_witness :
    isTokenExpired 1000 ⟨none, none, none⟩ = true ∧
    jsParseInt "2000" = some 2000 ∧
    isTokenExpired 1000 ⟨none, none, some "2000"⟩ = false ∧
    isTokenExpired 2500 ⟨none, none, some "2000"⟩ = true := by
  refine ⟨(c7_expiry_fail_closed_and_comparison 1000 ⟨none, none, none⟩).1 rfl,
    by decide,
    (c7_expiry_fail_closed_and_comparison 1000
      ⟨none, none, some "2000"⟩).2.2 "2000" 2000 rfl (by decide) (by decide),
    ((c7_expiry_fail_closed_and_comparison 2500
      ⟨none, none, some "2000"⟩).2.1 "2000" 2000 rfl (by decide)).trans (by decide)⟩

/-- C9 (the code, evaluated at the failing input): with an access token
present and the recorded expiry the non-numeric string `"abc"`,
`parseInt` yields `NaN`, the JS comparison `Date.now() >= NaN` is false,
so `isTokenExpired()` returns false and `isAuthenticated()` returns true —
the opposite of the fail-closed behavior the claim (and the spec's
fail-closed rule) requires. -/
theorem c9_non_numeric_expiry_fails_open :
    isTokenExpired 0 ⟨some "tok123", some "r1", some "abc"⟩ = false ∧
    isAuthenticated 0 ⟨some "tok123", some "r1", some "abc"⟩ = true := by
  exact ⟨by decide, by decide⟩

/-- C10: `clearTokens` removes all three fields from every starting state
(so the store is fully cleared after each call) and is idempotent: the
state after two calls equals the state after one. -/
theorem c10_clear_tokens_idempotent (s : LocalStorage) :
    clearTokens s = ⟨none, none, none⟩ ∧
    clearTokens (clearTokens s) = clearTokens s :=
  ⟨rfl, rfl⟩

/-- C1: every `request()` whose response has status 401 invokes the refresh
protocol exactly once — issuing one refresh POST when a refresh token is
held and none otherwise, so at most one per 401 — and returns the envelope
`{success: false, message: "Authentication required"}`, for every refresh
outcome `rr`; the primary request is fetched exactly once (never re-issued
with the new token). -/
theorem c1_unauthorized_single_refresh_no_retry (now : Int) (s : LocalStorage)
    (hs : List (String × String)) (stx : String)
    (body : Except JsException JsValue) (rr : RefreshResult) :
    (request now s hs (.response 401 stx body) rr).envelope =
      ⟨false, none, some "Authentication required"⟩ ∧
    (request now s hs (.response 401 stx body) rr).refreshPosts =
      (if hasRefreshToken s then 1 else 0) ∧
    (request now s hs (.response 401 stx body) rr).refreshPosts ≤ 1 ∧
    (request now s hs (.response 401 stx body) rr).primaryFetches = 1 := by
  rw [request_at_401]
  refine ⟨rfl, handleAuthError_refreshPosts now s rr, ?_, rfl⟩
  show (handleAuthError now s rr).refreshPosts ≤ 1
  rw [handleAuthError_refreshPosts now s rr]
  split <;> omega

/-- C2: `request()` is a total function into envelopes: for every input,
success is a boolean, a true success carries `data` and no `message`, a
false one carries a `message` and no `data` (exactly one of the two per
the flag); the transport-failure, 401 and parse-failure paths all yield
`success = false`, and a parsed response succeeds exactly when its status
is 2xx. -/
theorem c2_envelope_totality_and_exclusivity (now : Int) (s : LocalStorage)
    (hs : List (String × String)) (p : FetchResult) (rr : RefreshResult) :
    ((request now s hs p rr).envelope.success = true ↔
      (request now s hs p rr).envelope.data.isSome = true ∧
        (request now s hs p rr).envelope.message = none) ∧
    ((request now s hs p rr).envelope.success = false ↔
      (request now s hs p rr).envelope.data = none ∧
        (request now s hs p rr).envelope.message.isSome = true) ∧
    (∀ e, (request now s hs (.failure e) rr).envelope.success = false) ∧
    (∀ stx b, (request now s hs (.response 401 stx b) rr).envelope.success = false) ∧
    (∀ st stx e,
      (request now s hs (.response st stx (.error e)) rr).envelope.success = false) ∧
    (∀ st stx j,
      (request now s hs (.response st stx (.ok j)) rr).envelope.success = respOk st) := by
  have main : ∀ (p' : FetchResult),
      ((request now s hs p' rr).envelope.success = true ↔
        (request now s hs p' rr).envelope.data.isSome = true ∧
          (request now s hs p' rr).envelope.message = none) ∧
      ((request now s hs p' rr).envelope.success = false ↔
        (request now s hs p' rr).envelope.data = none ∧
          (request now s hs p' rr).envelope.message.isSome = true) := by
    intro p'
    cases p' with
    | failure e => simp [request]
    | response st stx body =>
      by_cases h401 : st = 401
      · subst h401
        rw [request_at_401]
        simp
      · cases body with
        | error e => simp [request, h401]
        | ok j =>
          by_cases hok : respOk st = true
          · simp [request, h401, hok]
          · simp [request, h401, hok]
  refine ⟨(main p).1, (main p).2, ?_, ?_, ?_, ?_⟩
  · intro e
    simp [request]
  · intro stx b
    rw [request_at_401]
  · intro st stx e
    by_cases h401 : st = 401
    · subst h401
      rw [request_at_401]
    · simp [request, h401]
  · intro st stx j
    by_cases h401 : st = 401
    · subst h401
      rw [request_at_401]
      simp [respOk]
    · by_cases hok : respOk st = true
      · simp [request, h401, hok]
      · simp [request, h401, hok]

/-- C3: whenever the refresh protocol runs holding a refresh token (the
`if (!refreshToken)` test fails, so the refresh POST is issued): an HTTP-OK
response whose body is a new Token Pair leads to `setTokens`, after which
`getAccessToken` returns the new access token and no redirect happens; a
rejected POST (transport exception) or a non-OK response clears the Token
Store — `getAccessToken` returns `none` — and redirects to the login
route. -/
theorem c3_refresh_success_stores_failure_clears (now : Int) (s : LocalStorage)
    (rr : RefreshResult) (h : hasRefreshToken s = true) :
    (∀ st auth, rr = .response st (.ok auth) → respOk st = true →
      (handleAuthError now s rr).store = setTokens now auth ∧
      getAccessToken (handleAuthError now s rr).store = some auth.access_token ∧
      (handleAuthError now s rr).redirect = none) ∧
    (∀ e, rr = .failure e →
      (handleAuthError now s rr).store = clearTokens s ∧
      getAccessToken (handleAuthError now s rr).store = none ∧
      (handleAuthError now s rr).redirect = some "/login") ∧
    (∀ st b, rr = .response st b → respOk st = false →
      (handleAuthError now s rr).store = clearTokens s ∧
      getAccessToken (handleAuthError now s rr).store = none ∧
      (handleAuthError now s rr).redirect = some "/login") := by
  unfold hasRefreshToken at h
  cases hrt : getRefreshToken s with
  | none => rw [hrt] at h; simp at h
  | some rt =>
    rw [hrt] at h
    simp only [decide_eq_true_eq] at h
    refine ⟨?_, ?_, ?_⟩
    · intro st auth hr hok
      subst hr
      simp [handleAuthError, hrt, h, hok, getAccessToken, setTokens]
    · intro e hr
      subst hr
      simp [handleAuthError, hrt, h, getAccessToken, clearTokens]
    · intro st b hr hok
      subst hr
      simp [handleAuthError, hrt, h, hok, getAccessToken, clearTokens]

/-- Witness for C3: with refresh token `"r1"` held, an OK refresh carrying
the pair `(a2, r2)` leaves access token `"a2"` in the store (scenario A),
and a 403 refresh leaves the store cleared (scenario B). -/
theorem c3_refresh_success_stores_failure_clears_witness :
    hasRefreshToken ⟨some "t1", some "r1", some "0"⟩ = true ∧
    getAccessToken (handleAuthError 100 ⟨some "t1", some "r1", some "0"⟩
      (.response 200 (.ok ⟨"a2", "r2", "bearer", 3600⟩))).store = some "a2" ∧
    getAccessToken (handleAuthError 100 ⟨some "t1", some "r1", some "0"⟩
      (.response 403 (.error .nonError))).store = none :=
  ⟨by decide,
    ((c3_refresh_success_stores_failure_clears 100 ⟨some "t1", some "r1", some "0"⟩
      (.response 200 (.ok ⟨"a2", "r2", "bearer", 3600⟩)) (by decide)).1
      200 ⟨"a2", "r2", "bearer", 3600⟩ rfl (by decide)).2.1,
    ((c3_refresh_success_stores_failure_clears 100 ⟨some "t1", some "r1", some "0"⟩
      (.response 403 (.error .nonError)) (by decide)).2.2
      403 (.error .nonError) rfl (by decide)).2.1⟩

/-- C4: a 401 arriving while the Token Store holds no refresh token never
contacts the refresh endpoint (zero refresh POSTs); the store is cleared
immediately and the browser is redirected to the login route. -/
theorem c4_no_refresh_token_short_circuit (now : Int) (s : LocalStorage)
    (hs : List (String × String)) (stx : String)
    (body : Except JsException JsValue) (rr : RefreshResult)
    (h : getRefreshToken s = none) :
    (request now s hs (.response 401 stx body) rr).refreshPosts = 0 ∧
    (request now s hs (.response 401 stx body) rr).store = clearTokens s ∧
    (request now s hs (.response 401 stx body) rr).redirect = some "/login" := by
  rw [request_at_401]
  simp [handleAuthError, h]

/-- Witness for C4 at a concrete store with no refresh token. -/
theorem c4_no_refresh_token_short_circuit_witness :
    getRefreshToken ⟨some "t1", none, some "0"⟩ = none ∧
    (request 100 ⟨some "t1", none, some "0"⟩ []
      (.response 401 "Unauthorized" (.ok .null)) (.failure .nonError)).refreshPosts = 0 :=
  ⟨rfl,
    (c4_no_refresh_token_short_circuit 100 ⟨some "t1", none, some "0"⟩ []
      "Unauthorized" (.ok .null) (.failure .nonError) rfl).1⟩

/-- C5 (counterexample): the store holding the empty-string access token —
present per `getAccessToken` (`'' !== null`) — with an expiry far in the
future is not expired, yet the outbound headers carry no Authorization
header at all: the injection test `if (token && ...)` uses JS truthiness,
not presence. -/
theorem c5_counterexample_empty_present_token :
    getAccessToken ⟨some "", some "r1", some "9999999999999"⟩ ≠ none ∧
    isTokenExpired 0 ⟨some "", some "r1", some "9999999999999"⟩ = false ∧
    headerLookup "Authorization"
      (requestHeaders 0 ⟨some "", some "r1", some "9999999999999"⟩ []) = none := by
  refine ⟨by decide, by decide, by decide⟩

/-- C5 (amended): for every request, if the Token Store holds a present,
*non-empty* and non-expired access token `t` the sent headers carry
`Authorization: Bearer t`; if the token is absent, empty, or expired the
header object is exactly the merge of the defaults with the caller headers
(no Authorization is set); `Content-Type: application/json` is present
unless overridden by the caller; and the primary fetch sends exactly these
headers. -/
theorem c5_header_injection_amended (now : Int) (s : LocalStorage)
    (hs : List (String × String)) :
    (∀ t, getAccessToken s = some t → t ≠ "" → isTokenExpired now s = false →
      headerLookup "Authorization" (requestHeaders now s hs) =
        some ("Bearer " ++ t)) ∧
    ((getAccessToken s = none ∨ getAccessToken s = some "" ∨
        isTokenExpired now s = true) →
      requestHeaders now s hs =
        mergeHeaders [("Content-Type", "application/json")] hs) ∧
    (headerLookup "Content-Type" hs = none →
      headerLookup "Content-Type" (requestHeaders now s hs) =
        some "application/json") ∧
    (∀ p rr, (request now s hs p rr).sentHeaders = requestHeaders now s hs) := by
  refine ⟨?_, ?_, ?_, fun p rr => request_sentHeaders now s hs p rr⟩
  · intro t ht hne hexp
    simp [requestHeaders, ht, hne, hexp, headerLookup_setHeader_self]
  · intro hcase
    rcases hcase with h | h | h
    · simp [requestHeaders, h]
    · simp [requestHeaders, h]
    · cases ht : getAccessToken s with
      | none => simp [requestHeaders, ht]
      | some t =>
        by_cases hne : t = "" <;> simp [requestHeaders, ht, hne, h]
  · intro hct
    have hbase : headerLookup "Content-Type"
        (mergeHeaders [("Content-Type", "application/json")] hs) =
        some "application/json" := by
      rw [headerLookup_mergeHeaders_of_absent hs _ _ hct]
      rfl
    cases ht : getAccessToken s with
    | none => simpa [requestHeaders, ht] using hbase
    | some t =>
      by_cases hne : t = ""
      · simpa [requestHeaders, ht, hne] using hbase
      · by_cases hexp : isTokenExpired now s = true
        · simpa [requestHeaders, ht, hne, hexp] using hbase
        · have hauth := headerLookup_setHeader_ne
            (mergeHeaders [("Content-Type", "application/json")] hs)
            "Authorization" "Content-Type" ("Bearer " ++ t) (by decide)
          simp only [requestHeaders, ht, hne, hexp]
          simpa [hne, hexp] using hauth.trans hbase

/-- Witness for C5 (amended) at concrete stores: a valid token `tok123`
gets the Bearer header; an empty-but-present token leaves the headers at
the plain merge; the default Content-Type is present. -/
theorem c5_header_injection_amended_witness :
    getAccessToken ⟨some "tok123", none, some "9999999999999"⟩ = some "tok123" ∧
    isTokenExpired 0 ⟨some "tok123", none, some "9999999999999"⟩ = false ∧
    headerLookup "Authorization"
      (requestHeaders 0 ⟨some "tok123", none, some "9999999999999"⟩ []) =
      some ("Bearer " ++ "tok123") ∧
    requestHeaders 0 ⟨some "", none, none⟩ [] =
      mergeHeaders [("Content-Type", "application/json")] [] ∧
    headerLookup "Content-Type"
      (requestHeaders 0 ⟨none, none, none⟩ []) = some "application/json" :=
  ⟨rfl, by decide,
    (c5_header_injection_amended 0 ⟨some "tok123", none, some "9999999999999"⟩ []).1
      "tok123" rfl (by decide) (by decide),
    (c5_header_injection_amended 0 ⟨some "", none, none⟩ []).2.1
      (Or.inr (Or.inl rfl)),
    (c5_header_injection_amended 0 ⟨none, none, none⟩ []).2.2.1 rfl⟩

/-- C8 (against the spec-modelled login flow, the `AuthContext` caller not
being among the sources): a `login()` call whose HTTP response is 2xx and
whose body is a Token Pair ends with the pair stored — the store holds the
returned access token, refresh token, and the computed expiry
`now + expires_in * 1000`. -/
theorem c8_login_success_creates_token_pair (now : Int) (s : LocalStorage)
    (st : Nat) (stx : String) (j : JsValue) (rr : RefreshResult)
    (auth : AuthResponse) (hok : respOk st = true)
    (hj : authResponseOfJson j = some auth) :
    (loginFlow now s (.response st stx (.ok j)) rr).envelope.success = true ∧
    (loginFlow now s (.response st stx (.ok j)) rr).store = setTokens now auth ∧
    getAccessToken (loginFlow now s (.response st stx (.ok j)) rr).store =
      some auth.access_token ∧
    getRefreshToken (loginFlow now s (.response st stx (.ok j)) rr).store =
      some auth.refresh_token ∧
    (loginFlow now s (.response st stx (.ok j)) rr).store.admin_token_expiry =
      some (toString (now + auth.expires_in * 1000)) := by
  have h401 : ¬(st = 401) := by
    intro h
    subst h
    simp [respOk] at hok
  simp [loginFlow, login, request, h401, hok, hj, setTokens,
    getAccessToken, getRefreshToken]

/-- Witness for C8: logging in against an empty store with a 200 response
carrying the pair `(a1, r1, 3600s)` leaves access token `"a1"` stored. -/
theorem c8_login_success_creates_token_pair_witness :
    respOk 200 = true ∧
    authResponseOfJson (.obj [("access_token", .str "a1"),
      ("refresh_token", .str "r1"), ("token_type", .str "bearer"),
      ("expires_in", .num 3600)]) = some ⟨"a1", "r1", "bearer", 3600⟩ ∧
    getAccessToken (loginFlow 100 ⟨none, none, none⟩
      (.response 200 "OK" (.ok (.obj [("access_token", .str "a1"),
        ("refresh_token", .str "r1"), ("token_type", .str "bearer"),
        ("expires_in", .num 3600)]))) (.failure .nonError)).store = some "a1" :=
  ⟨by decide, by decide,
    (c8_login_success_creates_token_pair 100 ⟨none, none, none⟩ 200 "OK"
      (.obj [("access_token", .str "a1"), ("refresh_token", .str "r1"),
        ("token_type", .str "bearer"), ("expires_in", .num 3600)])
      (.failure .nonError) ⟨"a1", "r1", "bearer", 3600⟩
      (by decide) (by decide)).2.2.1⟩

end Revcopy
